import Mathlib

/-!
Shallow embedding of the yychat-server core (src/src/index.ts): the channel
registry (`Channels` class) and the websocket message handler, plus the HTTP
route handlers for PATCH/DELETE /channels/:id.

Modelling conventions:
* JS `Map<ChannelId, Channel>` is an insertion-ordered association list with
  unique keys; `set` overwrites in place or appends, `delete` removes the
  entries for the key.
* JSON numerals are modelled as integers (`Int`); every numeral the claims
  touch is an integer channel id.  `Number(idString)` results that are NaN,
  infinite, or non-integral are modelled by the `JsNum` type; none of them
  can match a stored (natural-number) key of the registry map.
* JS string length is UTF-16 code units; for the ASCII names and messages the
  claims are about, it coincides with `String.length`.
* TypeScript exceptions are `Except String`: a thrown validation error aborts
  the operation before any mutation, so the caller's state is unchanged.
-/

namespace YYChat

/-- JSON values produced by `JSON.parse` (numerals as integers). -/
inductive Json where
  | null
  | bool (b : Bool)
  | num (n : Int)
  | str (s : String)
  | arr (elems : List Json)
  | obj (fields : List (String × Json))
deriving Repr

/-- Escaping of one character inside a JSON string literal, as
`JSON.stringify` does it: quote, backslash and the common control
characters get two-character escapes. -/
def escapeJsonChar (c : Char) : String :=
  if c = '"' then "\\\""
  else if c = '\\' then "\\\\"
  else if c = '\n' then "\\n"
  else if c = '\r' then "\\r"
  else if c = '\t' then "\\t"
  else String.singleton c

/-- JSON string escaping applied to a whole string. -/
def escapeJson (s : String) : String :=
  String.join (s.data.map escapeJsonChar)

mutual

/-- Serialization `JSON.stringify` on a parsed JSON value. -/
def Json.stringify : Json → String
  | Json.null => "null"
  | Json.bool true => "true"
  | Json.bool false => "false"
  | Json.num n => toString n
  | Json.str s => "\"" ++ escapeJson s ++ "\""
  | Json.arr xs => "[" ++ stringifyElems xs ++ "]"
  | Json.obj fs => "\x7b" ++ stringifyFields fs ++ "\x7d"

/-- Comma-separated serialization of array elements. -/
def stringifyElems : List Json → String
  | [] => ""
  | [x] => Json.stringify x
  | x :: y :: rest => Json.stringify x ++ "," ++ stringifyElems (y :: rest)

/-- Comma-separated serialization of object fields. -/
def stringifyFields : List (String × Json) → String
  | [] => ""
  | [(k, v)] => "\"" ++ escapeJson k ++ "\":" ++ Json.stringify v
  | (k, v) :: f :: rest =>
      "\"" ++ escapeJson k ++ "\":" ++ Json.stringify v ++ "," ++
        stringifyFields (f :: rest)

end

/-- Property access `v.k` on a parsed JSON value: defined for objects,
`undefined` (here `none`) for everything else. -/
def Json.getProp : Json → String → Option Json
  | Json.obj fs, k => fs.lookup k
  | _, _ => none

/-- Source `interface Message`. -/
structure Message where
  userName : String
  text : String
deriving Repr, DecidableEq

/-- Source `interface Channel`. -/
structure Channel where
  id : Nat
  name : String
  messages : List Message
deriving Repr, DecidableEq

/-- The private state of the `Channels` class: the id→channel map and the
`nextChannelId` counter. -/
structure ChannelsState where
  channels : List (Nat × Channel)
  nextChannelId : Nat
deriving Repr, DecidableEq

/-- JS `Map.prototype.get`. -/
def mapGet : List (Nat × Channel) → Nat → Option Channel
  | [], _ => none
  | (k, v) :: rest, key => if k = key then some v else mapGet rest key

/-- JS `Map.prototype.set`: overwrite in place if the key is present,
append otherwise. -/
def mapSet : List (Nat × Channel) → Nat → Channel → List (Nat × Channel)
  | [], key, v => [(key, v)]
  | (k, w) :: rest, key, v =>
      if k = key then (key, v) :: rest else (k, w) :: mapSet rest key v

/-- JS `Map.prototype.delete`: remove the entries stored under the key
(a JS map has at most one). -/
def mapDelete (l : List (Nat × Channel)) (key : Nat) : List (Nat × Channel) :=
  l.filter (fun p => p.1 ≠ key)

/-- One character of the class `[A-Za-z0-9_-]`. -/
def isChannelNameChar (c : Char) : Bool :=
  ('A' ≤ c && c ≤ 'Z') || ('a' ≤ c && c ≤ 'z') || ('0' ≤ c && c ≤ '9') ||
    c = '_' || c = '-'

/-- Error message of the length-≥1 rule. -/
def errNameEmpty : String := "チャネル名は1文字以上にしてください。"

/-- Error message of the length-≤15 rule. -/
def errNameTooLong : String := "チャネル名は15文字以内にしてください。"

/-- Error message of the charset rule. -/
def errNameBadChars : String := "チャネル名は半角英数にしてください。"

/-- Error message of the uniqueness rule. -/
def errNameTaken : String := "すでに存在しているチャネル名は使用できません。"

/-- Error message of `changeName` on an unknown id. -/
def errChannelMissing : String := "チャネルが存在しません。"

/-- Source `Channels.validateChannelName`: `none` when the name passes, otherwise
the message of the error thrown. -/
def validateChannelName (s : ChannelsState) (name : String) : Option String :=
  if name.length = 0 then some errNameEmpty
  else if name.length > 15 then some errNameTooLong
  else if (name.data.all isChannelNameChar) = false then some errNameBadChars
  else if s.channels.any (fun p => p.2.name = name) then some errNameTaken
  else none

/-- Source `Channels.create`: validate, issue the next id, store the channel with
empty history, return it. -/
def create (s : ChannelsState) (name : String) :
    Except String (Channel × ChannelsState) :=
  match validateChannelName s name with
  | some e => Except.error e
  | none =>
      let ch : Channel := ⟨s.nextChannelId, name, []⟩
      Except.ok (ch, ⟨mapSet s.channels ch.id ch, s.nextChannelId + 1⟩)

/-- Source `Channels.changeName`: look the id up, validate the new name against the
whole registry (the renamed channel included), store the renamed record. -/
def changeName (s : ChannelsState) (id : Nat) (name : String) :
    Except String (Channel × ChannelsState) :=
  match mapGet s.channels id with
  | none => Except.error errChannelMissing
  | some ch =>
      match validateChannelName s name with
      | some e => Except.error e
      | none =>
          let newChannel : Channel := { ch with name := name }
          Except.ok (newChannel, { s with channels := mapSet s.channels id newChannel })

/-- Source `Channels.getChannel`. -/
def getChannel (s : ChannelsState) (id : Nat) : Option Channel :=
  mapGet s.channels id

/-- Source `Channels.getAllChannels`. -/
def getAllChannels (s : ChannelsState) : List Channel :=
  s.channels.map Prod.snd

/-- Source `Channels.deleteChannel`: `Map.delete`, never an error. -/
def deleteChannel (s : ChannelsState) (id : Nat) : ChannelsState :=
  { s with channels := mapDelete s.channels id }

/-- Running `create` as a state transformer: on a thrown validation error the
caller's registry is unchanged. -/
def createS (s : ChannelsState) (name : String) : ChannelsState :=
  match create s name with
  | Except.ok (_, s2) => s2
  | Except.error _ => s

/-- Running `changeName` as a state transformer: on a thrown error the
caller's registry is unchanged. -/
def changeNameS (s : ChannelsState) (id : Nat) (name : String) : ChannelsState :=
  match changeName s id name with
  | Except.ok (_, s2) => s2
  | Except.error _ => s

/-- A JS number obtained from `Number(idString)`: NaN, an integer, or some
other number (non-integral or infinite).  Registry keys are natural numbers,
so only a non-negative integer can hit the map. -/
inductive JsNum where
  | nan
  | int (n : Int)
  | otherNum
deriving Repr, DecidableEq

/-- Lookup `channels.get(Number(idString))`: only an exact non-negative integer key
can match a stored entry; `get(NaN)` and `get` of a non-integral number are
always `undefined`. -/
def jsNumGet (s : ChannelsState) : JsNum → Option Channel
  | JsNum.int (Int.ofNat n) => mapGet s.channels n
  | _ => none

/-- Source `assertChannelName`: `ctx.request.body.name` is `none`
when the field is absent (JS `undefined`). -/
def assertChannelName : Option Json → Except String String
  | none => Except.error "name parameter is missing"
  | some (Json.str s) => Except.ok s
  | some _ => Except.error "name parameter is not a string value"

/-- Outcome of an HTTP route handler. -/
inductive RouteResp where
  | okChannel (c : Channel)
  | okEmpty
  | httpError (status : Nat) (message : String)
deriving Repr, DecidableEq

/-- The `PATCH /channels/:id` handler: parse the id, 404 if no channel is
stored under it, assert the body's `name`, then `changeName` (validation
failures become 400). -/
def patchRoute (s : ChannelsState) (idv : JsNum) (nameField : Option Json) :
    RouteResp × ChannelsState :=
  match idv with
  | JsNum.int (Int.ofNat n) =>
      match mapGet s.channels n with
      | none => (RouteResp.httpError 404 "Channel not found", s)
      | some _ =>
          match assertChannelName nameField with
          | Except.error e => (RouteResp.httpError 400 e, s)
          | Except.ok newName =>
              match changeName s n newName with
              | Except.ok (ch, s2) => (RouteResp.okChannel ch, s2)
              | Except.error e => (RouteResp.httpError 400 e, s)
  | _ => (RouteResp.httpError 404 "Channel not found", s)

/-- The `DELETE /channels/:id` handler: parse the id, 404 if no channel is
stored under it, otherwise delete and answer with an empty body. -/
def deleteRoute (s : ChannelsState) (idv : JsNum) : RouteResp × ChannelsState :=
  match idv with
  | JsNum.int (Int.ofNat n) =>
      match mapGet s.channels n with
      | none => (RouteResp.httpError 404 "Channel not found", s)
      | some _ => (RouteResp.okEmpty, deleteChannel s n)
  | _ => (RouteResp.httpError 404 "Channel not found", s)

/-- Source `isNewMessage`: the payload is an object (not null), its `type` is the
string `"message"`, `channelId` is a number, `userName` and `text` are
strings.  Property access on non-objects yields `undefined` and every check
fails. -/
def isNewMessage (v : Json) : Bool :=
  match v.getProp "type", v.getProp "channelId",
      v.getProp "userName", v.getProp "text" with
  | some (Json.str t), some (Json.num _), some (Json.str _), some (Json.str _) =>
      t = "message"
  | _, _, _, _ => false

/-- Access `data.userName` after the `isNewMessage` guard (only used when the
property is a string). -/
def msgUserName (v : Json) : String :=
  match v.getProp "userName" with
  | some (Json.str s) => s
  | _ => ""

/-- Access `data.text` after the `isNewMessage` guard. -/
def msgText (v : Json) : String :=
  match v.getProp "text" with
  | some (Json.str s) => s
  | _ => ""

/-- Access `data.channelId` after the `isNewMessage` guard. -/
def msgChannelId (v : Json) : Int :=
  match v.getProp "channelId" with
  | some (Json.num n) => n
  | _ => 0

/-- The error frame `JSON.stringify({type: 'error', message})`. -/
def errorFrame (message : String) : String :=
  Json.stringify (Json.obj [("type", Json.str "error"), ("message", Json.str message)])

/-- One inbound websocket text frame after `JSON.parse`: either the parse
error's message or the parsed value. -/
def Inbound := Except String Json

/-- The websocket `message` handler of `route.all('/messages')`.  Result: the
registry afterwards and the list of (recipient, text-frame) sends it
performed, in order.  Error frames go to the sender only; an accepted message
is appended to the resolved channel's history and `JSON.stringify(data)` is
sent to every connected client. -/
def handleParsed (s : ChannelsState) (clients : List Nat) (sender : Nat)
    (data : Json) : ChannelsState × List (Nat × String) :=
  if isNewMessage data = false then
    (s, [(sender, errorFrame "Invalid message format")])
  else if (msgUserName data).length < 1 then
    (s, [(sender, errorFrame "Message userName must be longer than 0 character")])
  else if (msgText data).length < 1 then
    (s, [(sender, errorFrame "Message text must be longer than 0 character")])
  else
    match msgChannelId data with
    | Int.negSucc _ => (s, [(sender, errorFrame "Channel not found")])
    | Int.ofNat n =>
        match mapGet s.channels n with
        | none => (s, [(sender, errorFrame "Channel not found")])
        | some ch =>
            let ch2 : Channel :=
              { ch with messages := ch.messages ++ [⟨msgUserName data, msgText data⟩] }
            ({ s with channels := mapSet s.channels n ch2 },
              clients.map (fun c => (c, Json.stringify data)))

/-- The branch dispatch of the handler on the `JSON.parse` outcome. -/
def handleMessage (s : ChannelsState) (clients : List Nat) (sender : Nat)
    (raw : Except String Json) : ChannelsState × List (Nat × String) :=
  match raw with
  | Except.error emsg => (s, [(sender, errorFrame emsg)])
  | Except.ok data => handleParsed s clients sender data

/-- One registry operation, for reasoning about operation sequences. -/
inductive Op where
  | createOp (name : String)
  | renameOp (id : Nat) (name : String)
  | deleteOp (id : Nat)
deriving Repr

/-- Apply one operation to the registry (failed operations leave the state
unchanged, as the thrown exception aborts before any mutation). -/
def applyOp (s : ChannelsState) : Op → ChannelsState
  | Op.createOp name => createS s name
  | Op.renameOp id name => changeNameS s id name
  | Op.deleteOp id => deleteChannel s id

/-- Run a sequence of operations. -/
def runOps (s : ChannelsState) : List Op → ChannelsState
  | [] => s
  | op :: rest => runOps (applyOp s op) rest

/-- The ids handed out by the successful creates of an operation sequence,
in order. -/
def issuedIds (s : ChannelsState) : List Op → List Nat
  | [] => []
  | Op.createOp name :: rest =>
      match create s name with
      | Except.ok (ch, s2) => ch.id :: issuedIds s2 rest
      | Except.error _ => issuedIds s rest
  | op :: rest => issuedIds (applyOp s op) rest

/-- The registry at process start: empty map, counter at 1, then the two
seed channels `general` and `random` are created. -/
def initState : ChannelsState :=
  createS (createS ⟨[], 1⟩ "general") "random"

/-- Lookup `channels.get(i)` for an arbitrary integer-modelled JS number: negative
numbers never match a stored natural-number key. -/
def getChannelInt (s : ChannelsState) : Int → Option Channel
  | Int.ofNat n => mapGet s.channels n
  | Int.negSucc _ => none

lemma string_length_eq_zero (s : String) : s.length = 0 ↔ s = "" := by
  constructor
  · intro h
    cases s with
    | mk data => cases data with
      | nil => rfl
      | cons c t => simp [String.length] at h
  · intro h; subst h; rfl

lemma mapGet_mapSet_self (l : List (Nat × Channel)) (k : Nat) (v : Channel) :
    mapGet (mapSet l k v) k = some v := by
  induction l with
  | nil => simp [mapSet, mapGet]
  | cons p t ih =>
      by_cases h : p.1 = k
      · simp [mapSet, mapGet, h]
      · simp [mapSet, mapGet, h, ih]

lemma mapGet_some_mem (l : List (Nat × Channel)) (k : Nat) (v : Channel) :
    mapGet l k = some v → (k, v) ∈ l := by
  induction l with
  | nil => intro h; simp [mapGet] at h
  | cons p t ih =>
      intro h
      obtain ⟨a, b⟩ := p
      by_cases hk : a = k
      · have hb : b = v := by simpa [mapGet, hk] using h
        subst hk; subst hb
        exact List.mem_cons_self _ _
      · have h' : mapGet t k = some v := by simpa [mapGet, hk] using h
        exact List.mem_cons_of_mem _ (ih h')

lemma mapDelete_of_get_none (l : List (Nat × Channel)) (k : Nat) :
    mapGet l k = none → mapDelete l k = l := by
  induction l with
  | nil => intro _; rfl
  | cons p t ih =>
      intro h
      obtain ⟨a, b⟩ := p
      by_cases hk : a = k
      · simp [mapGet, hk] at h
      · have h' : mapGet t k = none := by simpa [mapGet, hk] using h
        have iht := ih h'
        simp only [mapDelete] at iht ⊢
        rw [List.filter_cons, if_pos (by simp [hk])]
        exact congrArg _ iht

lemma filter_map_pairs (clients : List Nat) (c : Nat) (P : String) :
    ((clients.map fun x => (x, P)).filter fun f => f.1 = c).length =
      clients.count c := by
  induction clients with
  | nil => rfl
  | cons a t ih =>
      by_cases h : a = c
      · subst h
        simp [List.filter_cons, List.count_cons, ih]
      · simp [List.filter_cons, List.count_cons, h, ih]

lemma validateChannelName_eq_none (s : ChannelsState) (name : String)
    (h1 : 1 ≤ name.length) (h2 : name.length ≤ 15)
    (h3 : name.data.all isChannelNameChar = true)
    (h4 : ∀ p ∈ s.channels, p.2.name ≠ name) :
    validateChannelName s name = none := by
  have e1 : ¬ name.length = 0 := by omega
  have e2 : ¬ name.length > 15 := by omega
  have e4 : s.channels.any (fun p => p.2.name = name) = false := by
    simp only [List.any_eq_false, decide_eq_true_eq]
    exact h4
  simp [validateChannelName, e1, e2, h3, e4]

/-- Claim C1: For every name of length 1–15 over `[A-Za-z0-9_-]` that differs
from every live channel's name, `create` succeeds, issues the next
identifier (and bumps the counter), stores a channel with that name and
empty history and returns it; a subsequent `getChannel` on the returned id
yields that channel, with that name and empty history. -/
theorem create_valid_fresh_ok (s : ChannelsState) (name : String)
    (h1 : 1 ≤ name.length) (h2 : name.length ≤ 15)
    (h3 : name.data.all isChannelNameChar = true)
    (h4 : ∀ p ∈ s.channels, p.2.name ≠ name) :
    create s name = Except.ok (⟨s.nextChannelId, name, []⟩,
      ⟨mapSet s.channels s.nextChannelId ⟨s.nextChannelId, name, []⟩,
        s.nextChannelId + 1⟩) ∧
    getChannel ⟨mapSet s.channels s.nextChannelId ⟨s.nextChannelId, name, []⟩,
        s.nextChannelId + 1⟩ s.nextChannelId = some ⟨s.nextChannelId, name, []⟩ := by
  constructor
  · simp [create, validateChannelName_eq_none s name h1 h2 h3 h4]
  · exact mapGet_mapSet_self _ _ _

/-- Witness for C1 at a concrete input: creating `dev` in the seed registry
yields channel 3 with empty history, and `getChannel 3` finds it. -/
theorem create_valid_fresh_ok_witness :
    create initState "dev" = Except.ok (⟨3, "dev", []⟩,
      ⟨mapSet initState.channels 3 ⟨3, "dev", []⟩, 4⟩) ∧
    getChannel ⟨mapSet initState.channels 3 ⟨3, "dev", []⟩, 4⟩ 3 =
      some ⟨3, "dev", []⟩ := by
  have h := create_valid_fresh_ok initState "dev" (by decide) (by decide)
    (by decide) (by decide)
  exact h

lemma handleParsed_accepted (s : ChannelsState) (clients : List Nat)
    (sender : Nat) (data : Json) (n : Nat) (ch : Channel)
    (hmsg : isNewMessage data = true)
    (hu : msgUserName data ≠ "")
    (ht : msgText data ≠ "")
    (hcid : msgChannelId data = Int.ofNat n)
    (hch : mapGet s.channels n = some ch) :
    handleParsed s clients sender data =
      ({ s with channels := (mapSet s.channels n
          ⟨ch.id, ch.name, ch.messages ++ [⟨msgUserName data, msgText data⟩]⟩) },
        clients.map fun c => (c, Json.stringify data)) := by
  have hul : ¬ (msgUserName data).length < 1 := by
    intro hlt
    exact hu ((string_length_eq_zero _).1 (Nat.lt_one_iff.1 hlt))
  have htl : ¬ (msgText data).length < 1 := by
    intro hlt
    exact ht ((string_length_eq_zero _).1 (Nat.lt_one_iff.1 hlt))
  unfold handleParsed
  rw [hcid]
  simp [hmsg, hul, htl, hch]

/-- Claim C2: A payload that parses, has the required shape with non-empty
`userName` and `text`, and whose `channelId` resolves to a stored channel is
appended (as `{userName, text}`) to that channel's history exactly once, and
exactly one frame carrying the serialized validated payload is delivered to
every currently connected client, the sender among them. -/
theorem message_accepted_broadcast (s : ChannelsState) (clients : List Nat)
    (sender : Nat) (data : Json) (n : Nat) (ch : Channel)
    (hmsg : isNewMessage data = true)
    (hu : msgUserName data ≠ "")
    (ht : msgText data ≠ "")
    (hcid : msgChannelId data = Int.ofNat n)
    (hch : mapGet s.channels n = some ch) :
    handleMessage s clients sender (Except.ok data) =
      ({ s with channels := (mapSet s.channels n
          ⟨ch.id, ch.name, ch.messages ++ [⟨msgUserName data, msgText data⟩]⟩) },
        clients.map fun c => (c, Json.stringify data)) ∧
    (∀ c ∈ clients,
      (c, Json.stringify data) ∈ (handleMessage s clients sender (Except.ok data)).2) ∧
    (clients.Nodup → ∀ c ∈ clients,
      ((handleMessage s clients sender (Except.ok data)).2.filter
          fun f => f.1 = c).length = 1) := by
  have hmain : handleMessage s clients sender (Except.ok data) =
      ({ s with channels := (mapSet s.channels n
          ⟨ch.id, ch.name, ch.messages ++ [⟨msgUserName data, msgText data⟩]⟩) },
        clients.map fun c => (c, Json.stringify data)) :=
    handleParsed_accepted s clients sender data n ch hmsg hu ht hcid hch
  refine ⟨hmain, ?_, ?_⟩
  · intro c hc
    rw [hmain]
    exact List.mem_map_of_mem _ hc
  · intro hnd c hc
    rw [hmain]
    simp only [filter_map_pairs]
    exact List.count_eq_one_of_mem hnd hc

/-- Witness for C2: the scenario of the spec, a message to channel 1 of the
seed registry with two connected clients. -/
theorem message_accepted_broadcast_witness :
    handleMessage initState [10, 11] 10 (Except.ok (Json.obj
      [("type", Json.str "message"), ("channelId", Json.num 1),
        ("userName", Json.str "al"), ("text", Json.str "hi")])) =
      ({ initState with channels := (mapSet initState.channels 1
          ⟨1, "general", [⟨"al", "hi"⟩]⟩) },
        [(10, "\x7b\"type\":\"message\",\"channelId\":1,\"userName\":\"al\",\"text\":\"hi\"\x7d"),
          (11, "\x7b\"type\":\"message\",\"channelId\":1,\"userName\":\"al\",\"text\":\"hi\"\x7d")]) := by
  have h := message_accepted_broadcast initState [10, 11] 10
    (Json.obj [("type", Json.str "message"), ("channelId", Json.num 1),
      ("userName", Json.str "al"), ("text", Json.str "hi")])
    1 ⟨1, "general", []⟩ (by decide) (by decide) (by decide) (by decide) (by decide)
  rw [h.1]
  rfl

/-- Claim C3: Every rejected inbound payload — parse failure, wrong shape,
empty `userName`, empty `text`, or a `channelId` resolving to no channel —
produces exactly one error frame, sent to the originating connection only,
no broadcast frame, and leaves the registry (hence every channel's message
history) unchanged. -/
theorem rejected_payload_sender_only (s : ChannelsState) (clients : List Nat)
    (sender : Nat) (raw : Except String Json)
    (h : (∃ m, raw = Except.error m) ∨
      (∃ d, raw = Except.ok d ∧ (isNewMessage d = false ∨ msgUserName d = "" ∨
        msgText d = "" ∨ getChannelInt s (msgChannelId d) = none))) :
    (handleMessage s clients sender raw).1 = s ∧
    ∃ m, (handleMessage s clients sender raw).2 = [(sender, errorFrame m)] := by
  rcases h with ⟨m, hm⟩ | ⟨d, hd, hc⟩
  · subst hm
    exact ⟨rfl, m, rfl⟩
  · subst hd
    show (handleParsed s clients sender d).1 = s ∧
      ∃ m, (handleParsed s clients sender d).2 = [(sender, errorFrame m)]
    by_cases h1 : isNewMessage d = false
    · refine ⟨?_, "Invalid message format", ?_⟩ <;> simp [handleParsed, h1]
    · by_cases h2 : (msgUserName d).length < 1
      · refine ⟨?_, "Message userName must be longer than 0 character", ?_⟩ <;>
          simp [handleParsed, h1, h2]
      · by_cases h3 : (msgText d).length < 1
        · refine ⟨?_, "Message text must be longer than 0 character", ?_⟩ <;>
            simp [handleParsed, h1, h2, h3]
        · have hnone : getChannelInt s (msgChannelId d) = none := by
            rcases hc with hc | hc | hc | hc
            · exact absurd hc h1
            · exfalso; apply h2; rw [hc]; decide
            · exfalso; apply h3; rw [hc]; decide
            · exact hc
          cases hcid : msgChannelId d with
          | ofNat n =>
              have hget : mapGet s.channels n = none := by
                simpa [getChannelInt, hcid] using hnone
              refine ⟨?_, "Channel not found", ?_⟩ <;>
                simp [handleParsed, h1, h2, h3, hcid, hget]
          | negSucc k =>
              refine ⟨?_, "Channel not found", ?_⟩ <;>
                simp [handleParsed, h1, h2, h3, hcid]

/-- Witness for C3: a message to the nonexistent channel 9 of the seed
registry yields one `Channel not found` frame to the sender and no state
change. -/
theorem rejected_payload_sender_only_witness :
    (handleMessage initState [10, 11] 10 (Except.ok (Json.obj
      [("type", Json.str "message"), ("channelId", Json.num 9),
        ("userName", Json.str "al"), ("text", Json.str "hi")]))).1 = initState ∧
    ∃ m, (handleMessage initState [10, 11] 10 (Except.ok (Json.obj
      [("type", Json.str "message"), ("channelId", Json.num 9),
        ("userName", Json.str "al"), ("text", Json.str "hi")]))).2 =
      [(10, errorFrame m)] :=
  rejected_payload_sender_only initState [10, 11] 10 _
    (Or.inr ⟨_, rfl, Or.inr (Or.inr (Or.inr (by decide)))⟩)

/-- Claim C4: `changeName` on an existing id with a name the validator accepts
replaces the stored record's name, preserving the id and the entire message
history, and a `getChannel` on the id afterwards returns the renamed
channel; `changeName` on an unknown id fails with the not-found error and
the registry is unchanged. -/
theorem rename_preserves_id_history (s : ChannelsState) (id : Nat)
    (ch : Channel) (name : String) (s2 : ChannelsState) (id2 : Nat)
    (name2 : String) :
    (mapGet s.channels id = some ch → validateChannelName s name = none →
      changeName s id name = Except.ok (⟨ch.id, name, ch.messages⟩,
        { s with channels := (mapSet s.channels id ⟨ch.id, name, ch.messages⟩) }) ∧
      getChannel { s with channels := (mapSet s.channels id ⟨ch.id, name, ch.messages⟩) }
        id = some ⟨ch.id, name, ch.messages⟩) ∧
    (mapGet s2.channels id2 = none →
      changeName s2 id2 name2 = Except.error errChannelMissing ∧
      changeNameS s2 id2 name2 = s2) := by
  constructor
  · intro hget hval
    constructor
    · simp [changeName, hget, hval]
    · exact mapGet_mapSet_self _ _ _
  · intro hget
    constructor
    · simp [changeName, hget]
    · simp [changeNameS, changeName, hget]

/-- Witness for C4: renaming seed channel 1 to `dev` keeps id 1 and its
(empty) history; renaming the unknown id 99 fails and changes nothing. -/
theorem rename_preserves_id_history_witness :
    (changeName initState 1 "dev" = Except.ok (⟨1, "dev", []⟩,
        { initState with channels := (mapSet initState.channels 1 ⟨1, "dev", []⟩) }) ∧
      getChannel { initState with channels := (mapSet initState.channels 1 ⟨1, "dev", []⟩) }
        1 = some ⟨1, "dev", []⟩) ∧
    (changeName initState 99 "x" = Except.error errChannelMissing ∧
      changeNameS initState 99 "x" = initState) := by
  have h := rename_preserves_id_history initState 1 ⟨1, "general", []⟩ "dev"
    initState 99 "x"
  exact ⟨h.1 (by decide) (by decide), h.2 (by decide)⟩

lemma validateChannelName_isSome_of_dup (s : ChannelsState) (name : String)
    (h : ∃ p ∈ s.channels, p.2.name = name) :
    ∃ e, validateChannelName s name = some e := by
  by_cases h1 : name.length = 0
  · exact ⟨errNameEmpty, by simp [validateChannelName, h1]⟩
  · by_cases h2 : name.length > 15
    · exact ⟨errNameTooLong, by simp [validateChannelName, h1, h2]⟩
    · by_cases h3 : (name.data.all isChannelNameChar) = false
      · exact ⟨errNameBadChars, by simp [validateChannelName, h1, h2, h3]⟩
      · have h4 : s.channels.any (fun p => p.2.name = name) = true := by
          simp only [List.any_eq_true, decide_eq_true_eq]
          exact h
        exact ⟨errNameTaken, by simp [validateChannelName, h1, h2, h3, h4]⟩

/-- Claim C5: `create` with a name equal to some currently live channel's name
throws a validation error and registers nothing: the registry (its channel
list and so its size) is unchanged by the failed call. -/
theorem create_duplicate_name_fails (s : ChannelsState) (name : String)
    (h : ∃ p ∈ s.channels, p.2.name = name) :
    (∃ e, create s name = Except.error e) ∧ createS s name = s ∧
    (createS s name).channels.length = s.channels.length := by
  obtain ⟨e, he⟩ := validateChannelName_isSome_of_dup s name h
  have hc : create s name = Except.error e := by simp [create, he]
  have hs : createS s name = s := by simp [createS, hc]
  exact ⟨⟨e, hc⟩, hs, by rw [hs]⟩

/-- Witness for C5: creating `general` again in the seed registry fails and
leaves the two seed channels as they are. -/
theorem create_duplicate_name_fails_witness :
    (∃ e, create initState "general" = Except.error e) ∧
    createS initState "general" = initState ∧
    (createS initState "general").channels.length =
      initState.channels.length :=
  create_duplicate_name_fails initState "general" (by decide)

/-- Claim C6: `deleteChannel` is idempotent and total: deleting an id twice
leaves the registry exactly as deleting it once, and deleting an id that is
already absent succeeds as a no-op. -/
theorem delete_channel_idempotent (s : ChannelsState) (id : Nat) :
    deleteChannel (deleteChannel s id) id = deleteChannel s id ∧
    (getChannel s id = none → deleteChannel s id = s) := by
  constructor
  · simp [deleteChannel, mapDelete, List.filter_filter]
  · intro h
    have hd := mapDelete_of_get_none s.channels id h
    simp [deleteChannel, hd]

/-- Witness for C6: deleting the absent id 99 from the seed registry is a
no-op, and deleting it twice equals deleting it once. -/
theorem delete_channel_idempotent_witness :
    getChannel initState 99 = none ∧
    (deleteChannel (deleteChannel initState 99) 99 = deleteChannel initState 99 ∧
      deleteChannel initState 99 = initState) := by
  have h := delete_channel_idempotent initState 99
  exact ⟨by decide, h.1, h.2 (by decide)⟩

/-- Claim C8: Renaming a channel to its own current name is rejected as a
duplicate: the uniqueness check of `validateChannelName` ranges over all
stored channels, the channel being renamed included, so `changeName` throws
the duplicate-name error and the registry is unchanged. -/
theorem rename_to_own_name_rejected (s : ChannelsState) (id : Nat)
    (ch : Channel)
    (h1 : mapGet s.channels id = some ch)
    (h2 : 1 ≤ ch.name.length) (h3 : ch.name.length ≤ 15)
    (h4 : ch.name.data.all isChannelNameChar = true) :
    changeName s id ch.name = Except.error errNameTaken ∧
    changeNameS s id ch.name = s := by
  have hmem := mapGet_some_mem _ _ _ h1
  have e1 : ¬ ch.name.length = 0 := by omega
  have e2 : ¬ ch.name.length > 15 := by omega
  have h5 : s.channels.any (fun p => p.2.name = ch.name) = true := by
    simp only [List.any_eq_true, decide_eq_true_eq]
    exact ⟨(id, ch), hmem, rfl⟩
  have hval : validateChannelName s ch.name = some errNameTaken := by
    simp [validateChannelName, e1, e2, h4, h5]
  have hc : changeName s id ch.name = Except.error errNameTaken := by
    simp [changeName, h1, hval]
  exact ⟨hc, by simp [changeNameS, hc]⟩

/-- Witness for C8: renaming seed channel 1 to its own name `general` fails
with the duplicate-name error and changes nothing. -/
theorem rename_to_own_name_rejected_witness :
    changeName initState 1 "general" = Except.error errNameTaken ∧
    changeNameS initState 1 "general" = initState :=
  rename_to_own_name_rejected initState 1 ⟨1, "general", []⟩
    (by decide) (by decide) (by decide) (by decide)

/-- Claim C10: A `PATCH /channels/:id` or `DELETE /channels/:id` request whose
id segment does not parse to a number (`Number(idString)` is NaN) or parses
to a number under which no channel is stored answers 404 `Channel not found`
and leaves the registry unchanged. -/
theorem unknown_or_nan_id_404 (s : ChannelsState) (idv : JsNum)
    (nameField : Option Json)
    (h : jsNumGet s idv = none) :
    patchRoute s idv nameField = (RouteResp.httpError 404 "Channel not found", s) ∧
    deleteRoute s idv = (RouteResp.httpError 404 "Channel not found", s) := by
  cases idv with
  | nan => exact ⟨rfl, rfl⟩
  | otherNum => exact ⟨rfl, rfl⟩
  | int n =>
      cases n with
      | ofNat m =>
          have hg : mapGet s.channels m = none := by
            simpa [jsNumGet] using h
          constructor <;> simp [patchRoute, deleteRoute, hg]
      | negSucc k => exact ⟨rfl, rfl⟩

/-- Witness for C10: a NaN id against the seed registry gets 404 from both
handlers with the registry untouched. -/
theorem unknown_or_nan_id_404_witness :
    patchRoute initState JsNum.nan (some (Json.str "dev")) =
      (RouteResp.httpError 404 "Channel not found", initState) ∧
    deleteRoute initState JsNum.nan =
      (RouteResp.httpError 404 "Channel not found", initState) :=
  unknown_or_nan_id_404 initState JsNum.nan (some (Json.str "dev")) (by decide)

lemma applyOp_nextChannelId_mono (s : ChannelsState) (op : Op) :
    s.nextChannelId ≤ (applyOp s op).nextChannelId := by
  cases op with
  | createOp name =>
      cases hv : validateChannelName s name with
      | some e => simp [applyOp, createS, create, hv]
      | none => simp [applyOp, createS, create, hv]
  | renameOp id name =>
      cases hg : mapGet s.channels id with
      | none => simp [applyOp, changeNameS, changeName, hg]
      | some ch =>
          cases hv : validateChannelName s name with
          | some e => simp [applyOp, changeNameS, changeName, hg, hv]
          | none => simp [applyOp, changeNameS, changeName, hg, hv]
  | deleteOp id => exact le_refl _

lemma runOps_nextChannelId_mono (s : ChannelsState) (ops : List Op) :
    s.nextChannelId ≤ (runOps s ops).nextChannelId := by
  induction ops generalizing s with
  | nil => exact le_refl _
  | cons op rest ih =>
      exact le_trans (applyOp_nextChannelId_mono s op) (ih (applyOp s op))

lemma issuedIds_createOp_error (s : ChannelsState) (name : String)
    (rest : List Op) (e : String) (hv : validateChannelName s name = some e) :
    issuedIds s (Op.createOp name :: rest) = issuedIds s rest := by
  simp [issuedIds, create, hv]

lemma issuedIds_createOp_ok (s : ChannelsState) (name : String)
    (rest : List Op) (hv : validateChannelName s name = none) :
    issuedIds s (Op.createOp name :: rest) = s.nextChannelId ::
      issuedIds ⟨mapSet s.channels s.nextChannelId ⟨s.nextChannelId, name, []⟩,
        s.nextChannelId + 1⟩ rest := by
  simp [issuedIds, create, hv]

lemma createS_of_validate_none (s : ChannelsState) (name : String)
    (hv : validateChannelName s name = none) :
    createS s name = ⟨mapSet s.channels s.nextChannelId
      ⟨s.nextChannelId, name, []⟩, s.nextChannelId + 1⟩ := by
  simp [createS, create, hv]

lemma createS_of_validate_some (s : ChannelsState) (name : String) (e : String)
    (hv : validateChannelName s name = some e) : createS s name = s := by
  simp [createS, create, hv]

lemma issuedIds_lower_bound (ops : List Op) :
    ∀ (s : ChannelsState), ∀ m ∈ issuedIds s ops, s.nextChannelId ≤ m := by
  induction ops with
  | nil => intro s m hm; simp [issuedIds] at hm
  | cons op rest ih =>
      intro s m hm
      cases op with
      | createOp name =>
          cases hv : validateChannelName s name with
          | some e =>
              rw [issuedIds_createOp_error s name rest e hv] at hm
              exact ih s m hm
          | none =>
              rw [issuedIds_createOp_ok s name rest hv] at hm
              rcases List.mem_cons.1 hm with hm | hm
              · omega
              · have := ih _ m hm
                simp only at this
                omega
      | renameOp id name =>
          have heq : issuedIds s (Op.renameOp id name :: rest) =
              issuedIds (applyOp s (Op.renameOp id name)) rest := rfl
          rw [heq] at hm
          exact le_trans (applyOp_nextChannelId_mono s _) (ih _ m hm)
      | deleteOp id =>
          have heq : issuedIds s (Op.deleteOp id :: rest) =
              issuedIds (applyOp s (Op.deleteOp id)) rest := rfl
          rw [heq] at hm
          exact le_trans (applyOp_nextChannelId_mono s _) (ih _ m hm)

lemma issuedIds_pairwise_lt (ops : List Op) :
    ∀ s : ChannelsState, List.Pairwise (· < ·) (issuedIds s ops) := by
  induction ops with
  | nil => intro s; simp [issuedIds]
  | cons op rest ih =>
      intro s
      cases op with
      | createOp name =>
          cases hv : validateChannelName s name with
          | some e =>
              rw [issuedIds_createOp_error s name rest e hv]
              exact ih s
          | none =>
              rw [issuedIds_createOp_ok s name rest hv]
              refine List.Pairwise.cons ?_ (ih _)
              intro m hm
              have := issuedIds_lower_bound rest _ m hm
              simp only at this
              omega
      | renameOp id name => exact ih (applyOp s (Op.renameOp id name))
      | deleteOp id => exact ih (applyOp s (Op.deleteOp id))

lemma issuedIds_lt_final (ops : List Op) :
    ∀ s : ChannelsState, ∀ m ∈ issuedIds s ops,
      m < (runOps s ops).nextChannelId := by
  induction ops with
  | nil => intro s m hm; simp [issuedIds] at hm
  | cons op rest ih =>
      intro s m hm
      cases op with
      | createOp name =>
          cases hv : validateChannelName s name with
          | some e =>
              rw [issuedIds_createOp_error s name rest e hv] at hm
              have hrun : runOps s (Op.createOp name :: rest) =
                  runOps s rest := by
                show runOps (applyOp s (Op.createOp name)) rest = runOps s rest
                rw [show applyOp s (Op.createOp name) = s from
                  createS_of_validate_some s name e hv]
              rw [hrun]
              exact ih s m hm
          | none =>
              rw [issuedIds_createOp_ok s name rest hv] at hm
              have hrun : runOps s (Op.createOp name :: rest) =
                  runOps (⟨mapSet s.channels s.nextChannelId
                    ⟨s.nextChannelId, name, []⟩, s.nextChannelId + 1⟩ :
                      ChannelsState) rest := by
                show runOps (applyOp s (Op.createOp name)) rest = _
                rw [show applyOp s (Op.createOp name) = _ from
                  createS_of_validate_none s name hv]
              rw [hrun]
              rcases List.mem_cons.1 hm with hm | hm
              · subst hm
                have := runOps_nextChannelId_mono (⟨mapSet s.channels
                    s.nextChannelId ⟨s.nextChannelId, name, []⟩,
                    s.nextChannelId + 1⟩ : ChannelsState) rest
                simp only at this
                omega
              · exact ih _ m hm
      | renameOp id name => exact ih (applyOp s (Op.renameOp id name)) m hm
      | deleteOp id => exact ih (applyOp s (Op.deleteOp id)) m hm

/-- Claim C7: Channel identifiers are never reused: along any sequence of
operations the ids handed out by the successful creates are strictly
increasing, and every one of them stays strictly below the final value of
the counter, so the next create can never receive a previously issued id.
Moreover a deleted channel's name is released: if no other live channel
carries it, creating it again right after the delete succeeds and receives
the current (fresh) value of the counter. -/
theorem channel_ids_never_reused (s : ChannelsState) (ops : List Op)
    (id : Nat) (ch : Channel)
    (h1 : mapGet s.channels id = some ch)
    (h2 : 1 ≤ ch.name.length) (h3 : ch.name.length ≤ 15)
    (h4 : ch.name.data.all isChannelNameChar = true)
    (h5 : ∀ p ∈ s.channels, p.1 ≠ id → p.2.name ≠ ch.name) :
    List.Pairwise (· < ·) (issuedIds s ops) ∧
    (∀ m ∈ issuedIds s ops, m < (runOps s ops).nextChannelId) ∧
    create (deleteChannel s id) ch.name = Except.ok
      (⟨s.nextChannelId, ch.name, []⟩,
        ⟨mapSet (mapDelete s.channels id) s.nextChannelId
          ⟨s.nextChannelId, ch.name, []⟩, s.nextChannelId + 1⟩) := by
  refine ⟨issuedIds_pairwise_lt ops s, issuedIds_lt_final ops s, ?_⟩
  have hfresh : ∀ p ∈ (deleteChannel s id).channels, p.2.name ≠ ch.name := by
    intro p hp
    simp only [deleteChannel, mapDelete, List.mem_filter,
      decide_eq_true_eq] at hp
    exact h5 p hp.1 hp.2
  have hval := validateChannelName_eq_none (deleteChannel s id) ch.name
    h2 h3 h4 hfresh
  simp only [deleteChannel] at hval
  simp [create, deleteChannel, hval]

/-- Witness for C7: from the seed registry, create `dev` (id 3), delete it,
create `dev` again (id 4): the issued ids `[3, 4]` are strictly increasing
and below the final counter 5, and deleting channel 2 releases the name
`random` for an immediate re-create under the fresh id 3. -/
theorem channel_ids_never_reused_witness :
    List.Pairwise (· < ·) (issuedIds initState
      [Op.createOp "dev", Op.deleteOp 3, Op.createOp "dev"]) ∧
    (∀ m ∈ issuedIds initState
      [Op.createOp "dev", Op.deleteOp 3, Op.createOp "dev"],
        m < (runOps initState
          [Op.createOp "dev", Op.deleteOp 3, Op.createOp "dev"]).nextChannelId) ∧
    create (deleteChannel initState 2) "random" = Except.ok
      (⟨3, "random", []⟩,
        ⟨mapSet (mapDelete initState.channels 2) 3 ⟨3, "random", []⟩, 4⟩) :=
  channel_ids_never_reused initState
    [Op.createOp "dev", Op.deleteOp 3, Op.createOp "dev"]
    2 ⟨2, "random", []⟩ (by decide) (by decide) (by decide) (by decide)
    (by decide)

/-- Claim C9: An accepted payload carrying properties beyond the four required
fields contributes only `{userName, text}` to the channel's history, while
the frame broadcast to every connected client is the JSON re-serialization
of the entire parsed payload — the extra properties included. -/
theorem extra_props_relayed (s : ChannelsState) (clients : List Nat)
    (sender : Nat) (fields : List (String × Json)) (n : Nat) (ch : Channel)
    (k : String)
    (hmsg : isNewMessage (Json.obj fields) = true)
    (hu : msgUserName (Json.obj fields) ≠ "")
    (ht : msgText (Json.obj fields) ≠ "")
    (hcid : msgChannelId (Json.obj fields) = Int.ofNat n)
    (hch : mapGet s.channels n = some ch)
    (hk : k ∈ fields.map Prod.fst)
    (hex : k ≠ "type" ∧ k ≠ "channelId" ∧ k ≠ "userName" ∧ k ≠ "text") :
    (handleMessage s clients sender (Except.ok (Json.obj fields))).1.channels =
      mapSet s.channels n ⟨ch.id, ch.name, ch.messages ++
        [⟨msgUserName (Json.obj fields), msgText (Json.obj fields)⟩]⟩ ∧
    (handleMessage s clients sender (Except.ok (Json.obj fields))).2 =
      clients.map fun c => (c, Json.stringify (Json.obj fields)) := by
  have hmain : handleMessage s clients sender (Except.ok (Json.obj fields)) =
      ({ s with channels := (mapSet s.channels n
          ⟨ch.id, ch.name, ch.messages ++ [⟨msgUserName (Json.obj fields),
            msgText (Json.obj fields)⟩]⟩) },
        clients.map fun c => (c, Json.stringify (Json.obj fields))) :=
    handleParsed_accepted s clients sender (Json.obj fields) n ch
      hmsg hu ht hcid hch
  rw [hmain]
  exact ⟨rfl, rfl⟩

/-- Witness for C9: a payload with the extra property `color` appends only
`{userName := al, text := hi}` to channel 1's history, while the frame every
client receives is the serialization of the whole payload, `color` and
all. -/
theorem extra_props_relayed_witness :
    (handleMessage initState [10, 11] 10 (Except.ok (Json.obj
      [("type", Json.str "message"), ("channelId", Json.num 1),
        ("userName", Json.str "al"), ("text", Json.str "hi"),
        ("color", Json.str "red")]))).1.channels =
      mapSet initState.channels 1 ⟨1, "general", [⟨"al", "hi"⟩]⟩ ∧
    (handleMessage initState [10, 11] 10 (Except.ok (Json.obj
      [("type", Json.str "message"), ("channelId", Json.num 1),
        ("userName", Json.str "al"), ("text", Json.str "hi"),
        ("color", Json.str "red")]))).2 =
      [(10, "\x7b\"type\":\"message\",\"channelId\":1,\"userName\":\"al\",\"text\":\"hi\",\"color\":\"red\"\x7d"),
        (11, "\x7b\"type\":\"message\",\"channelId\":1,\"userName\":\"al\",\"text\":\"hi\",\"color\":\"red\"\x7d")] := by
  have h := extra_props_relayed initState [10, 11] 10
    [("type", Json.str "message"), ("channelId", Json.num 1),
      ("userName", Json.str "al"), ("text", Json.str "hi"),
      ("color", Json.str "red")]
    1 ⟨1, "general", []⟩ "color" (by decide) (by decide) (by decide)
    (by decide) (by decide) (by decide) (by decide)
  refine ⟨h.1, ?_⟩
  rw [h.2]
  rfl

end YYChat
